import Mathlib

/-!
Verification of the mons-box-cli virtual-creature program.

The development shallowly embeds the creature-state record and its
transition functions from `src/app_state/monster.rs`, the persistence
round-trip (`save` / `load_or_create`), and the interactive event loop
from `src/interactive/event.rs`.

Modelling conventions:
- Rust `u8` values are `Nat` with explicit saturation (`satAdd8`,
  truncated `Nat` subtraction for `saturating_sub`) and explicit
  wrapping `% 256` (`wrap8`) where the source performs an unchecked
  `u8` addition or multiplication.
- Rust `u32` values are `Nat` with explicit saturation at `2 ^ 32 - 1`
  and the `i64 as u32` cast written as `% 2 ^ 32`.
- `DateTime<Utc>` timestamps are `Int` seconds; chrono's
  `Duration::num_hours` truncates toward zero, which is `Int.tdiv` by
  3600.  `Instant` values used by the transient-message timer are `Int`
  nanoseconds, so `Duration::from_secs(3)` is the literal 3000000000.
- Message strings are an inductive `Msg` of the distinct messages the
  program can produce; the random flavor choice in `feed` / `play`
  affects only the emoji inside one message text, never the state, so
  the successful-action messages are single constructors.
-/

/-- Wrapping 8-bit arithmetic: the value of an unchecked Rust `u8`
addition or multiplication (release-mode semantics). -/
def wrap8 (n : Nat) : Nat := n % 256

/-- Rust `u8::saturating_add`. -/
def satAdd8 (a b : Nat) : Nat := min (a + b) 255

/-- Rust `u8::saturating_sub` / `u32::saturating_sub`: truncated `Nat`
subtraction already saturates at 0. -/
def satSub (a b : Nat) : Nat := a - b

/-- Rust `u32::saturating_add`. -/
def satAdd32 (a b : Nat) : Nat := min (a + b) 4294967295

/-- Constant `STAT_DECAY_RATE` from `monster.rs`. -/
def STAT_DECAY_RATE : Nat := 2

/-- Constant `SLEEP_RECOVERY_RATE` from `monster.rs`. -/
def SLEEP_RECOVERY_RATE : Nat := 10

/-- Constant `MAX_STAT` from `monster.rs`. -/
def MAX_STAT : Nat := 100

/-- The `Monster` struct of `src/app_state/monster.rs` (the spec calls it
CreatureState; its `last_updated` field is `updated_at` here, as in the
source).  `updated_at : Int` is the UTC timestamp in seconds. -/
structure Monster where
  name : String
  hunger : Nat
  happiness : Nat
  energy : Nat
  health : Nat
  age : Nat
  is_sleeping : Bool
  is_alive : Bool
  updated_at : Int
deriving DecidableEq, Repr

/-- The distinct user-facing messages produced by the transitions and the
event loop.  The random food / activity emoji inside the successful
`feed` / `play` texts does not affect state, so each of those texts is a
single constructor. -/
inductive Msg where
  | deceased
  | sleeping
  | too_full
  | ate
  | too_tired
  | too_hungry
  | played
  | sleep_start
  | wake_up
  | status_updated
  | reset_done
  | reset_refused
  | alert_died
  | alert_starving
  | alert_low_health
deriving DecidableEq, Repr

/-- Whole hours elapsed between `m.updated_at` and `now`:
`now.signed_duration_since(self.updated_at).num_hours()` in the source.
chrono truncates toward zero, hence `Int.tdiv`. -/
def hoursPassed (m : Monster) (now : Int) : Int :=
  Int.tdiv (now - m.updated_at) 3600

/-- `Monster::update_from_time_passage` (monster.rs lines 114-149) with
the wall-clock reading `Utc::now()` passed in as `now`.  The
`hours_passed as u32` cast is the `% 2 ^ 32` below; the `/ 1` mirrors
the source's `(hours_clamped * STAT_DECAY_RATE) / 1`.  The health
penalty's `decay_amount * 2` is an unchecked `u8` multiply, hence
`wrap8` (it never actually wraps since `decay_amount ≤ 100`). -/
def update_from_time_passage (m : Monster) (now : Int) : Monster :=
  let hours_passed := hoursPassed m now
  if 0 < hours_passed then
    let hours_clamped := min (hours_passed.toNat % 4294967296) 1000
    let age' := satAdd32 m.age hours_clamped
    let decay_amount := min (hours_clamped * STAT_DECAY_RATE / 1) MAX_STAT
    let recovery_amount := min (hours_clamped * SLEEP_RECOVERY_RATE / 2) MAX_STAT
    let hunger' :=
      if m.is_sleeping then min (satAdd8 m.hunger (decay_amount / 2)) MAX_STAT
      else min (satAdd8 m.hunger decay_amount) MAX_STAT
    let happiness' :=
      if m.is_sleeping then m.happiness
      else max (satSub m.happiness (decay_amount / 2)) 1
    let energy' :=
      if m.is_sleeping then min (satAdd8 m.energy recovery_amount) MAX_STAT
      else max (satSub m.energy decay_amount) 0
    let health' :=
      if 80 < hunger' ∨ happiness' < 20 ∨ energy' < 10 then
        satSub m.health (max (wrap8 (decay_amount * 2)) 1)
      else m.health
    let is_alive' := if health' = 0 then false else m.is_alive
    { m with
      age := age', hunger := hunger', happiness := happiness',
      energy := energy', health := health', is_alive := is_alive',
      updated_at := now }
  else
    { m with updated_at := now }

/-- `Monster::feed` (monster.rs lines 161-183).  The successful branch's
`happiness + 10` and `health + 5` are unchecked `u8` additions, hence
`wrap8`. -/
def Monster.feed (m : Monster) : Monster × Msg :=
  if m.is_alive = false then (m, Msg.deceased)
  else if m.is_sleeping then (m, Msg.sleeping)
  else if m.hunger ≤ 20 then
    ({ m with happiness := satSub m.happiness 5 }, Msg.too_full)
  else
    ({ m with
        hunger := satSub m.hunger 25,
        happiness := min (wrap8 (m.happiness + 10)) MAX_STAT,
        health := min (wrap8 (m.health + 5)) MAX_STAT }, Msg.ate)

/-- `Monster::play` (monster.rs lines 185-210).  `happiness + 20` and
`hunger + 5` are unchecked `u8` additions, hence `wrap8`. -/
def Monster.play (m : Monster) : Monster × Msg :=
  if m.is_alive = false then (m, Msg.deceased)
  else if m.is_sleeping then (m, Msg.sleeping)
  else if m.energy < 20 then (m, Msg.too_tired)
  else if 80 < m.hunger then (m, Msg.too_hungry)
  else
    ({ m with
        happiness := min (wrap8 (m.happiness + 20)) MAX_STAT,
        energy := satSub m.energy 15,
        hunger := min (wrap8 (m.hunger + 5)) MAX_STAT }, Msg.played)

/-- `Monster::toggle_sleep` (monster.rs lines 212-224). -/
def Monster.toggle_sleep (m : Monster) : Monster × Msg :=
  if m.is_alive = false then (m, Msg.deceased)
  else
    let m' := { m with is_sleeping := !m.is_sleeping }
    (m', if m'.is_sleeping then Msg.sleep_start else Msg.wake_up)

/-- `Monster::default` (monster.rs lines 35-49): the record `reset`
followed by `load_or_create` produces when the user supplies no name;
`Utc::now()` is passed in as `now`. -/
def monster_default (now : Int) : Monster :=
  { name := "Fluffy", hunger := 50, happiness := 70, energy := 80,
    health := 100, age := 0, is_sleeping := false, is_alive := true,
    updated_at := now }

/-- Bounded vitality stats all within `[0, 100]` (the lower bound is
automatic for `Nat`, matching `u8 ≥ 0`). -/
def valid_stats (m : Monster) : Prop :=
  m.hunger ≤ 100 ∧ m.happiness ≤ 100 ∧ m.energy ≤ 100 ∧ m.health ≤ 100

instance (m : Monster) : Decidable (valid_stats m) := by
  unfold valid_stats; infer_instance

/-- An action transition or a decay transition applied to the record
while it lives in the persisted slot (reset discards the record, so it
is not an `Act`). -/
inductive Act where
  | time (now : Int)
  | feed
  | play
  | sleep
deriving DecidableEq, Repr

/-- Apply one transition. -/
def apply_act : Act → Monster → Monster
  | Act.time now, m => update_from_time_passage m now
  | Act.feed, m => (Monster.feed m).1
  | Act.play, m => (Monster.play m).1
  | Act.sleep, m => (Monster.toggle_sleep m).1

/-- Apply a whole sequence of transitions, oldest first. -/
def apply_acts (acts : List Act) (m : Monster) : Monster :=
  acts.foldl (fun s a => apply_act a s) m

/-! ## Persistence: `save` and `load_or_create`

`Monster::save` serializes the record with `serde_json` into the single
state file; the existing-file branch of `Monster::load_or_create` parses
it back, then applies `update_from_time_passage` at the load time and
re-saves.  The JSON value is modelled structurally; serde's RFC3339 text
encoding of the timestamp is injective on instants, so the stored
timestamp is modelled as the underlying integer. -/

/-- A JSON value as produced and consumed by serde_json. -/
inductive Json where
  | null
  | bool (b : Bool)
  | num (n : Int)
  | str (s : String)
  | arr (xs : List Json)
  | obj (fields : List (String × Json))

/-- First binding of a key in a JSON object, as serde's field lookup. -/
def jlookup : List (String × Json) → String → Option Json
  | [], _ => none
  | (k, v) :: rest, key => if k = key then some v else jlookup rest key

/-- Deserialize a `u8` field: serde accepts exactly the integers in
`[0, 255]`. -/
def json_as_u8 : Json → Option Nat
  | Json.num n => if 0 ≤ n ∧ n ≤ 255 then some n.toNat else none
  | _ => none

/-- Deserialize a `u32` field: the integers in `[0, 2 ^ 32 - 1]`. -/
def json_as_u32 : Json → Option Nat
  | Json.num n => if 0 ≤ n ∧ n ≤ 4294967295 then some n.toNat else none
  | _ => none

/-- Deserialize a `bool` field. -/
def json_as_bool : Json → Option Bool
  | Json.bool b => some b
  | _ => none

/-- Deserialize a `String` field. -/
def json_as_str : Json → Option String
  | Json.str s => some s
  | _ => none

/-- Deserialize the `DateTime<Utc>` field (RFC3339 text, modelled by its
underlying instant). -/
def json_as_time : Json → Option Int
  | Json.num n => some n
  | _ => none

/-- The JSON record `Monster::save` writes (monster.rs lines 97-112):
the struct's fields in declaration order. -/
def monster_to_json (m : Monster) : Json :=
  Json.obj
    [("name", Json.str m.name),
     ("hunger", Json.num m.hunger),
     ("happiness", Json.num m.happiness),
     ("energy", Json.num m.energy),
     ("health", Json.num m.health),
     ("age", Json.num m.age),
     ("is_sleeping", Json.bool m.is_sleeping),
     ("is_alive", Json.bool m.is_alive),
     ("updated_at", Json.num m.updated_at)]

/-- serde's derived deserializer for `Monster`: look each field up by
name and check its type and range; any failure is a parse error
(`none`), which the program treats as fatal. -/
def monster_from_json : Json → Option Monster
  | Json.obj fields => do
      let name ← (jlookup fields "name").bind json_as_str
      let hunger ← (jlookup fields "hunger").bind json_as_u8
      let happiness ← (jlookup fields "happiness").bind json_as_u8
      let energy ← (jlookup fields "energy").bind json_as_u8
      let health ← (jlookup fields "health").bind json_as_u8
      let age ← (jlookup fields "age").bind json_as_u32
      let is_sleeping ← (jlookup fields "is_sleeping").bind json_as_bool
      let is_alive ← (jlookup fields "is_alive").bind json_as_bool
      let updated_at ← (jlookup fields "updated_at").bind json_as_time
      some ⟨name, hunger, happiness, energy, health, age, is_sleeping,
            is_alive, updated_at⟩
  | _ => none

/-- The existing-file branch of `Monster::load_or_create` (monster.rs
lines 59-75): parse the stored record, apply `update_from_time_passage`
at the load time `now`, save, and return the updated record (the save
does not change the returned value). -/
def load_existing (j : Json) (now : Int) : Option Monster :=
  (monster_from_json j).map (fun m => update_from_time_passage m now)

/-! ## The interactive event loop (`src/interactive/event.rs`)

The loop thread is the sole consumer of the merged event stream and the
sole mutator of the state, so one loop iteration is a pure function of
the current `InteractiveMode` record, the clock readings of that
iteration, and the received event (`none` when `recv_timeout` expires).
Each iteration carries a UTC reading (seconds, for
`update_from_time_passage`) and a monotonic `Instant` reading
(nanoseconds, for the transient-message timer). -/

/-- The `InputEvent` enum of event.rs. -/
inductive InputEvent where
  | feed
  | play
  | sleep
  | status
  | reset
  | quit
deriving DecidableEq, Repr

/-- The `GameEvent` enum of event.rs. -/
inductive GameEvent where
  | input (ev : InputEvent)
  | tick
deriving DecidableEq, Repr

/-- The `InteractiveMode` struct of event.rs: the loop-owned state. -/
structure InteractiveMode where
  monster : Monster
  should_quit : Bool
  message : Option Msg
  message_timer : Option Int
deriving DecidableEq, Repr

/-- The clock readings of one loop iteration: `utc` in seconds for
`Utc::now()`, `mono` in nanoseconds for `Instant::now()`. -/
structure LoopTimes where
  utc : Int
  mono : Int
deriving DecidableEq, Repr

/-- `InteractiveMode::set_message` (event.rs lines 262-265): store the
message and stamp it with the current instant. -/
def set_message (st : InteractiveMode) (msg : Msg) (now : Int) : InteractiveMode :=
  { st with message := some msg, message_timer := some now }

/-- The expiry check of event.rs lines 123-129: if a message timer is
set and `timer.elapsed() > Duration::from_secs(3)` (strictly more than
3000000000 ns), clear the message and its timer and redraw. -/
def check_message_expiry (st : InteractiveMode) (now : Int) : InteractiveMode :=
  match st.message_timer with
  | some t =>
      if 3000000000 < now - t then
        { st with message := none, message_timer := none }
      else st
  | none => st

/-- Whether `draw_interface` (event.rs lines 237-246) renders a
transient-message line: it does exactly when `self.message` is set. -/
def draw_shows_message (st : InteractiveMode) : Bool :=
  st.message.isSome

/-- `InteractiveMode::update_monster` (event.rs lines 186-208), the Tick
handler: decay at the UTC reading, save, then raise at most one alert,
only if no message is currently active. -/
def update_monster (st : InteractiveMode) (utc_now mono_now : Int) : InteractiveMode :=
  let m := update_from_time_passage st.monster utc_now
  let st1 := { st with monster := m }
  if !m.is_alive && st1.message.isNone then
    set_message st1 Msg.alert_died mono_now
  else if 90 < m.hunger && st1.message.isNone then
    set_message st1 Msg.alert_starving mono_now
  else if m.health < 20 && m.is_alive && st1.message.isNone then
    set_message st1 Msg.alert_low_health mono_now
  else st1

/-- `InteractiveMode::handle_input` (event.rs lines 210-235).  Returns
the new state and whether `self.monster.save()` ran.  `Quit` sets
`should_quit` and returns early: no message is set and no save happens.
For a `Reset` on a dead monster, `Monster::reset()` deletes the slot and
`load_or_create` creates a replacement; that freshly created record is
the parameter `fresh`. -/
def handle_input (st : InteractiveMode) (ev : InputEvent) (mono_now : Int)
    (fresh : Monster) : InteractiveMode × Bool :=
  match ev with
  | InputEvent.quit => ({ st with should_quit := true }, false)
  | InputEvent.feed =>
      let r := Monster.feed st.monster
      (set_message { st with monster := r.1 } r.2 mono_now, true)
  | InputEvent.play =>
      let r := Monster.play st.monster
      (set_message { st with monster := r.1 } r.2 mono_now, true)
  | InputEvent.sleep =>
      let r := Monster.toggle_sleep st.monster
      (set_message { st with monster := r.1 } r.2 mono_now, true)
  | InputEvent.status => (set_message st Msg.status_updated mono_now, true)
  | InputEvent.reset =>
      if st.monster.is_alive = false then
        (set_message { st with monster := fresh } Msg.reset_done mono_now, true)
      else (set_message st Msg.reset_refused mono_now, true)

/-- One iteration of the `while !self.should_quit` body (event.rs lines
109-130): consume the received event if any (a Tick runs
`update_monster`, which always saves; an input runs `handle_input`),
then run the message-expiry check.  The redraws themselves produce no
state. -/
def loop_iter (st : InteractiveMode) (fresh : Monster) (t : LoopTimes)
    (ev : Option GameEvent) : InteractiveMode × Bool :=
  match ev with
  | none => (check_message_expiry st t.mono, false)
  | some GameEvent.tick =>
      (check_message_expiry (update_monster st t.utc t.mono) t.mono, true)
  | some (GameEvent.input i) =>
      let r := handle_input st i t.mono fresh
      (check_message_expiry r.1 t.mono, r.2)

/-- `run_game_loop`'s while loop over a finite prefix of the merged
event stream: each entry is one iteration's clock readings and received
event.  The guard is checked before each receive, so events after the
iteration that sets `should_quit` are never consumed.  Returns the final
state and how many persistence writes occurred. -/
def run_loop (fresh : Monster) :
    InteractiveMode → List (LoopTimes × Option GameEvent) → InteractiveMode × Nat
  | st, [] => (st, 0)
  | st, (t, ev) :: rest =>
      if st.should_quit then (st, 0)
      else
        let step := loop_iter st fresh t ev
        let r := run_loop fresh step.1 rest
        (r.1, (if step.2 then 1 else 0) + r.2)

/-! ## Claim theorems -/

/-- Stat bounds are preserved by `update_from_time_passage`. -/
theorem update_valid_stats (m : Monster) (now : Int) (h : valid_stats m) :
    valid_stats (update_from_time_passage m now) := by
  obtain ⟨h1, h2, h3, h4⟩ := h
  by_cases hp : 0 < hoursPassed m now
  · simp only [update_from_time_passage]
    rw [if_pos hp]
    simp only [valid_stats]
    cases hs : m.is_sleeping <;>
      simp only [hs, Bool.false_eq_true, if_false, if_true, ite_true, ite_false,
        satAdd8, satSub, satAdd32, wrap8, STAT_DECAY_RATE, SLEEP_RECOVERY_RATE,
        MAX_STAT] <;>
      refine ⟨?_, ?_, ?_, ?_⟩ <;> (try split) <;> omega
  · simp only [update_from_time_passage]
    rw [if_neg hp]
    exact ⟨h1, h2, h3, h4⟩

/-- Stat bounds are preserved by `feed`. -/
theorem feed_valid_stats (m : Monster) (h : valid_stats m) :
    valid_stats (Monster.feed m).1 := by
  obtain ⟨h1, h2, h3, h4⟩ := h
  unfold Monster.feed
  split
  · exact ⟨h1, h2, h3, h4⟩
  · split
    · exact ⟨h1, h2, h3, h4⟩
    · split
      · exact ⟨h1, by simp only [satSub]; omega, h3, h4⟩
      · simp only [valid_stats, satSub, wrap8, MAX_STAT]
        omega

/-- Stat bounds are preserved by `play`. -/
theorem play_valid_stats (m : Monster) (h : valid_stats m) :
    valid_stats (Monster.play m).1 := by
  obtain ⟨h1, h2, h3, h4⟩ := h
  unfold Monster.play
  split
  · exact ⟨h1, h2, h3, h4⟩
  · split
    · exact ⟨h1, h2, h3, h4⟩
    · split
      · exact ⟨h1, h2, h3, h4⟩
      · split
        · exact ⟨h1, h2, h3, h4⟩
        · simp only [valid_stats, satSub, wrap8, MAX_STAT]
          omega

/-- Stat bounds are preserved by `toggle_sleep`. -/
theorem toggle_sleep_valid_stats (m : Monster) (h : valid_stats m) :
    valid_stats (Monster.toggle_sleep m).1 := by
  obtain ⟨h1, h2, h3, h4⟩ := h
  unfold Monster.toggle_sleep
  split
  · exact ⟨h1, h2, h3, h4⟩
  · exact ⟨h1, h2, h3, h4⟩

/-- C1: for every state whose bounded stats (hunger, happiness, energy,
health) all lie in `[0, 100]`, applying any transition —
`update_from_time_passage` with any time (later ones included), `feed`,
`play`, or `toggle_sleep` — yields a state whose four bounded stats
again all lie in `[0, 100]`. -/
theorem c1_stats_bounded (m : Monster) (now : Int) (h : valid_stats m) :
    valid_stats (update_from_time_passage m now) ∧
    valid_stats (Monster.feed m).1 ∧
    valid_stats (Monster.play m).1 ∧
    valid_stats (Monster.toggle_sleep m).1 :=
  ⟨update_valid_stats m now h, feed_valid_stats m h,
   play_valid_stats m h, toggle_sleep_valid_stats m h⟩

/-- Witness for C1 at the default monster and a time 10 hours later. -/
theorem c1_stats_bounded_witness :
    valid_stats (monster_default 0) ∧
    (valid_stats (update_from_time_passage (monster_default 0) 36000) ∧
     valid_stats (Monster.feed (monster_default 0)).1 ∧
     valid_stats (Monster.play (monster_default 0)).1 ∧
     valid_stats (Monster.toggle_sleep (monster_default 0)).1) :=
  ⟨by decide, c1_stats_bounded (monster_default 0) 36000 (by decide)⟩

/-- A single transition never turns `is_alive` from false to true. -/
theorem apply_act_dead (a : Act) (m : Monster) (hd : m.is_alive = false) :
    (apply_act a m).is_alive = false := by
  cases a with
  | time now =>
      simp only [apply_act]
      by_cases hp : 0 < hoursPassed m now
      · simp only [update_from_time_passage]
        rw [if_pos hp]
        simp only [hd, ite_self]
      · simp only [update_from_time_passage]
        rw [if_neg hp]
        exact hd
  | feed =>
      simp only [apply_act, Monster.feed, hd, if_true, ite_true]
  | play =>
      simp only [apply_act, Monster.play, hd, if_true, ite_true]
  | sleep =>
      simp only [apply_act, Monster.toggle_sleep, hd, if_true, ite_true]

/-- A dead record stays dead along any sequence of transitions. -/
theorem apply_acts_dead (acts : List Act) (m : Monster) (hd : m.is_alive = false) :
    (apply_acts acts m).is_alive = false := by
  induction acts generalizing m with
  | nil => exact hd
  | cons a rest ih =>
      simp only [apply_acts, List.foldl_cons]
      exact ih (apply_act a m) (apply_act_dead a m hd)

/-- C2: `is_alive` is a one-way latch.  Starting from any dead record, no
sequence of `update_from_time_passage` / `feed` / `play` / `toggle_sleep`
transitions ever makes `is_alive` true again; only `reset`, which
discards the record and has `load_or_create` build a fresh one (the
`Monster::default` shape), yields a live creature. -/
theorem c2_dead_latch (m : Monster) (hd : m.is_alive = false) :
    (∀ acts : List Act, (apply_acts acts m).is_alive = false) ∧
    (∀ t : Int, (monster_default t).is_alive = true) :=
  ⟨fun acts => apply_acts_dead acts m hd, fun _ => rfl⟩

/-- Witness for C2: a dead default-shaped monster stays dead through a
feed, a play, a sleep toggle, and two hours of decay. -/
theorem c2_dead_latch_witness :
    (apply_acts [Act.feed, Act.play, Act.sleep, Act.time 7200]
        { monster_default 0 with health := 0, is_alive := false }).is_alive = false ∧
    (monster_default 0).is_alive = true :=
  ⟨(c2_dead_latch { monster_default 0 with health := 0, is_alive := false } rfl).1
      [Act.feed, Act.play, Act.sleep, Act.time 7200],
   (c2_dead_latch { monster_default 0 with health := 0, is_alive := false } rfl).2 0⟩

/-- A record whose stored timestamp lies two hours after the clock
reading used for the update — the clock-regression case. -/
def c3m : Monster := { monster_default 7200 with }

/-- C3 counterexample: with `last_updated` after `now` the whole hours
elapsed are `≤ 0`, yet `update_from_time_passage` still overwrites
`updated_at` with `now`, moving it backward — refuting the claim that
`last_updated` never moves backward and is monotonically non-decreasing
across every call. -/
theorem c3_updated_at_regress_cex :
    hoursPassed c3m 0 ≤ 0 ∧
    (update_from_time_passage c3m 0).updated_at < c3m.updated_at := by
  decide

/-- C3 (amended): if the whole hours elapsed are `≤ 0` (the case where
`last_updated` lies after `now` included), `update_from_time_passage`
changes no stat, does not decrease `age`, and only refreshes
`updated_at` to `now`; `updated_at` is therefore non-decreasing exactly
when the clock reading itself has not regressed (`updated_at ≤ now`),
and it moves backward when the clock has. -/
theorem c3_time_noop_amended (m : Monster) (now : Int) :
    (hoursPassed m now ≤ 0 →
      update_from_time_passage m now = { m with updated_at := now }) ∧
    (m.updated_at ≤ now →
      m.updated_at ≤ (update_from_time_passage m now).updated_at) := by
  constructor
  · intro hle
    have hp : ¬0 < hoursPassed m now := by omega
    simp only [update_from_time_passage]
    rw [if_neg hp]
  · intro hle
    by_cases hp : 0 < hoursPassed m now
    · simp only [update_from_time_passage]
      rw [if_pos hp]
      exact hle
    · simp only [update_from_time_passage]
      rw [if_neg hp]
      exact hle

/-- Witness for C3 (amended) at a state refreshed half an hour after its
stored timestamp: no whole hour has elapsed, so every field but
`updated_at` is unchanged and `updated_at` moves forward. -/
theorem c3_time_noop_amended_witness :
    (hoursPassed (monster_default 0) 1800 ≤ 0 →
      update_from_time_passage (monster_default 0) 1800
        = { monster_default 0 with updated_at := 1800 }) ∧
    ((monster_default 0).updated_at ≤ 1800 →
      (monster_default 0).updated_at
        ≤ (update_from_time_passage (monster_default 0) 1800).updated_at) :=
  c3_time_noop_amended (monster_default 0) 1800

/-- A living, awake state with hunger 15 but happiness only 3. -/
def c4m : Monster := { monster_default 0 with hunger := 15, happiness := 3 }

/-- C4 counterexample: on a living, awake state with hunger 15 and
happiness 3, the too-full refusal reduces happiness to 0 — a reduction
of 3, not of exactly 5 (`saturating_sub` stops at 0), refuting the
claim's "reduces happiness by exactly 5" for every such state. -/
theorem c4_happiness_saturation_cex :
    c4m.is_alive = true ∧ c4m.is_sleeping = false ∧ c4m.hunger = 15 ∧
    (Monster.feed c4m).2 = Msg.too_full ∧
    (Monster.feed c4m).1.happiness + 5 ≠ c4m.happiness := by
  decide

/-- C4 (amended): on every living, awake state with hunger 15 (hence
`hunger ≤ 20`), `feed` returns the too-full refusal message, sets
happiness to `happiness - 5` saturating at 0 — a reduction of exactly 5
whenever `happiness ≥ 5` — and leaves hunger and every other field
unchanged. -/
theorem c4_too_full_amended (m : Monster) (ha : m.is_alive = true)
    (hs : m.is_sleeping = false) (hh : m.hunger = 15) :
    Monster.feed m = ({ m with happiness := satSub m.happiness 5 }, Msg.too_full) ∧
    (5 ≤ m.happiness → (Monster.feed m).1.happiness + 5 = m.happiness) := by
  have hfeed :
      Monster.feed m = ({ m with happiness := satSub m.happiness 5 }, Msg.too_full) := by
    simp only [Monster.feed, ha, hs, hh, Bool.true_eq_false, if_false,
      Bool.false_eq_true, ite_false]
    rw [if_pos (by omega)]
  refine ⟨hfeed, fun h5 => ?_⟩
  rw [hfeed]
  simp only [satSub]
  omega

/-- Witness for C4 (amended) at a living, awake monster with hunger 15
and happiness 70. -/
theorem c4_too_full_amended_witness :
    Monster.feed { monster_default 0 with hunger := 15 }
        = ({ { monster_default 0 with hunger := 15 } with
              happiness := satSub { monster_default 0 with hunger := 15 }.happiness 5 },
           Msg.too_full) ∧
    (5 ≤ { monster_default 0 with hunger := 15 }.happiness →
      (Monster.feed { monster_default 0 with hunger := 15 }).1.happiness + 5
        = { monster_default 0 with hunger := 15 }.happiness) :=
  c4_too_full_amended { monster_default 0 with hunger := 15 } rfl rfl rfl

/-- C5: on every living, awake state with energy 10 (hence below the
threshold 20), `play` returns the too-tired refusal and the state
unchanged in every field. -/
theorem c5_too_tired_frame (m : Monster) (ha : m.is_alive = true)
    (hs : m.is_sleeping = false) (he : m.energy = 10) :
    Monster.play m = (m, Msg.too_tired) := by
  simp only [Monster.play, ha, hs, he, Bool.true_eq_false, if_false,
    Bool.false_eq_true, ite_false]
  rw [if_pos (by omega)]

/-- Witness for C5 at a living, awake monster with energy 10. -/
theorem c5_too_tired_frame_witness :
    Monster.play { monster_default 0 with energy := 10 }
      = ({ monster_default 0 with energy := 10 }, Msg.too_tired) :=
  c5_too_tired_frame { monster_default 0 with energy := 10 } rfl rfl rfl

/-- Parsing the record `save` writes recovers every field, timestamp
included (the pure serialization round trip).  The bounds are the `u8` /
`u32` representation invariants every Rust-side record satisfies. -/
theorem save_parse_roundtrip (m : Monster)
    (h1 : m.hunger ≤ 255) (h2 : m.happiness ≤ 255) (h3 : m.energy ≤ 255)
    (h4 : m.health ≤ 255) (h5 : m.age ≤ 4294967295) :
    monster_from_json (monster_to_json m) = some m := by
  simp only [monster_to_json, monster_from_json, jlookup, String.reduceEq,
    if_true, if_false, ite_true, ite_false, reduceIte, Option.some_bind,
    Option.bind_some, json_as_str, json_as_u8, json_as_u32, json_as_bool,
    json_as_time, Option.bind_eq_bind]
  rw [if_pos (by omega), if_pos (by omega), if_pos (by omega),
    if_pos (by omega), if_pos (by omega)]
  simp only [Option.some_bind, Int.toNat_natCast]

/-- C6 counterexample: saving the default record stamped at time 0 and
then loading it through `load_or_create` two hours later yields a record
whose `updated_at` (and hunger) differ from the saved ones —
`load_or_create` applies `update_from_time_passage` after parsing, so
save-then-load is not the identity, timestamp included. -/
theorem c6_load_updates_timestamp_cex :
    (load_existing (monster_to_json (monster_default 0)) 7200).map Monster.updated_at
        ≠ some (monster_default 0).updated_at ∧
    (load_existing (monster_to_json (monster_default 0)) 7200).map Monster.hunger
        ≠ some (monster_default 0).hunger := by
  decide

/-- C6 (amended): `save` followed by parsing the stored record yields a
CreatureState equal to the saved one in all fields, the timestamp
included; the program's `load_or_create` then applies
`update_from_time_passage` at the load time, so the state it returns is
the saved state with that decay transition applied (in particular
`updated_at` becomes the load time). -/
theorem c6_roundtrip_amended (m : Monster)
    (h1 : m.hunger ≤ 255) (h2 : m.happiness ≤ 255) (h3 : m.energy ≤ 255)
    (h4 : m.health ≤ 255) (h5 : m.age ≤ 4294967295) :
    monster_from_json (monster_to_json m) = some m ∧
    ∀ now : Int, load_existing (monster_to_json m) now
        = some (update_from_time_passage m now) := by
  have hrt := save_parse_roundtrip m h1 h2 h3 h4 h5
  refine ⟨hrt, fun now => ?_⟩
  simp only [load_existing, hrt]
  rfl

/-- Witness for C6 (amended) at the default monster stamped at time 0. -/
theorem c6_roundtrip_amended_witness :
    monster_from_json (monster_to_json (monster_default 0)) = some (monster_default 0) ∧
    ∀ now : Int, load_existing (monster_to_json (monster_default 0)) now
        = some (update_from_time_passage (monster_default 0) now) :=
  c6_roundtrip_amended (monster_default 0) (by decide) (by decide) (by decide)
    (by decide) (by decide)

/-- The expiry check never changes `should_quit`. -/
theorem check_message_expiry_should_quit (st : InteractiveMode) (now : Int) :
    (check_message_expiry st now).should_quit = st.should_quit := by
  unfold check_message_expiry
  split
  · split <;> rfl
  · rfl

/-- Once `should_quit` holds, the loop consumes nothing further. -/
theorem run_loop_quit (fresh : Monster) (st : InteractiveMode)
    (evs : List (LoopTimes × Option GameEvent)) (h : st.should_quit = true) :
    run_loop fresh st evs = (st, 0) := by
  cases evs with
  | nil => rfl
  | cons e rest => simp only [run_loop, h, if_true, ite_true]

/-- A fresh interactive session owning the default monster: no message,
no timer, not quitting. -/
def im0 : InteractiveMode :=
  { monster := monster_default 0, should_quit := false,
    message := none, message_timer := none }

/-- C7 counterexample: a message set at instant 0 is still rendered by a
check performed exactly 3 seconds later — the code clears only when
`elapsed > 3s` holds strictly, so at a check at time `T + 3s` (which the
claim covers with its `≥`) the message has not been cleared. -/
theorem c7_boundary_cex :
    draw_shows_message
        (check_message_expiry (set_message im0 Msg.too_full 0) 3000000000) = true := by
  decide

/-- C7 (amended): a transient message set at instant `T`, with no new
message set afterwards, is cleared by every expiry check the loop
performs at an instant strictly later than `T + 3` seconds, and is
therefore absent from the render produced at or after that check. -/
theorem c7_expiry_amended (st : InteractiveMode) (msg : Msg) (t now : Int)
    (h : 3000000000 < now - t) :
    (check_message_expiry (set_message st msg t) now).message = none ∧
    draw_shows_message (check_message_expiry (set_message st msg t) now) = false := by
  simp only [set_message, check_message_expiry]
  rw [if_pos h]
  exact ⟨rfl, rfl⟩

/-- Witness for C7 (amended): a message set at instant 0 is gone from
the render at a check 3.000000001 seconds later. -/
theorem c7_expiry_amended_witness :
    (check_message_expiry (set_message im0 Msg.too_full 0) 3000000001).message = none ∧
    draw_shows_message
        (check_message_expiry (set_message im0 Msg.too_full 0) 3000000001) = false :=
  c7_expiry_amended im0 Msg.too_full 0 3000000001 (by decide)

/-- C8: when the loop consumes a `Quit` input event it deterministically
terminates: the iteration leaves the state unchanged except for setting
`should_quit` (plus the routine expiry check of that iteration, which
can only clear an already-expired message, never set one), performs no
persistence write (the save count of the whole run is 0), and consumes
no later event — the loop result is independent of everything after the
`Quit`, so no further redraw cycle is required. -/
theorem c8_quit_terminates (st : InteractiveMode) (fresh : Monster) (t : LoopTimes)
    (evs : List (LoopTimes × Option GameEvent)) (h : st.should_quit = false) :
    run_loop fresh st ((t, some (GameEvent.input InputEvent.quit)) :: evs)
      = (check_message_expiry { st with should_quit := true } t.mono, 0) := by
  have hq : (check_message_expiry { st with should_quit := true } t.mono).should_quit
      = true := by
    rw [check_message_expiry_should_quit]
  simp only [run_loop, h, Bool.false_eq_true, if_false, ite_false,
    loop_iter, handle_input]
  rw [run_loop_quit fresh _ evs hq]
  simp

/-- Witness for C8: a fresh session that receives `Quit` and then a
pending `Tick` ends immediately with no save and the tick unconsumed. -/
theorem c8_quit_terminates_witness :
    im0.should_quit = false ∧
    run_loop (monster_default 0) im0
        [(⟨0, 0⟩, some (GameEvent.input InputEvent.quit)),
         (⟨3600, 10⟩, some GameEvent.tick)]
      = (check_message_expiry { im0 with should_quit := true } (0 : Int), 0) :=
  ⟨rfl, c8_quit_terminates im0 (monster_default 0) ⟨0, 0⟩
      [(⟨3600, 10⟩, some GameEvent.tick)] rfl⟩

/-- C9: `update_from_time_passage` has no `is_alive` guard.  On a dead
record with at least one whole hour elapsed it still adds the clamped
hours to `age` and computes exactly the same hunger / happiness / energy
decay (or sleep recovery) and health penalty as it would for the same
record alive — and the record of course stays dead. -/
theorem c9_dead_still_decays (m : Monster) (now : Int)
    (hd : m.is_alive = false) (hh : 0 < hoursPassed m now) :
    (update_from_time_passage m now).age
        = satAdd32 m.age (min ((hoursPassed m now).toNat % 4294967296) 1000) ∧
    (update_from_time_passage m now).hunger
        = (update_from_time_passage { m with is_alive := true } now).hunger ∧
    (update_from_time_passage m now).happiness
        = (update_from_time_passage { m with is_alive := true } now).happiness ∧
    (update_from_time_passage m now).energy
        = (update_from_time_passage { m with is_alive := true } now).energy ∧
    (update_from_time_passage m now).health
        = (update_from_time_passage { m with is_alive := true } now).health ∧
    (update_from_time_passage m now).is_alive = false := by
  have hh2 : 0 < Int.tdiv (now - m.updated_at) 3600 := hh
  simp [update_from_time_passage, hoursPassed, if_pos hh2, hd]

/-- Witness for C9: a dead default-shaped record two hours stale still
ages and decays. -/
theorem c9_dead_still_decays_witness :
    (update_from_time_passage { monster_default 0 with health := 0, is_alive := false }
        7200).age
        = satAdd32 { monster_default 0 with health := 0, is_alive := false }.age
            (min ((hoursPassed { monster_default 0 with health := 0, is_alive := false }
                7200).toNat % 4294967296) 1000) ∧
    (update_from_time_passage { monster_default 0 with health := 0, is_alive := false }
        7200).hunger
        = (update_from_time_passage
            { { monster_default 0 with health := 0, is_alive := false } with
              is_alive := true } 7200).hunger ∧
    (update_from_time_passage { monster_default 0 with health := 0, is_alive := false }
        7200).happiness
        = (update_from_time_passage
            { { monster_default 0 with health := 0, is_alive := false } with
              is_alive := true } 7200).happiness ∧
    (update_from_time_passage { monster_default 0 with health := 0, is_alive := false }
        7200).energy
        = (update_from_time_passage
            { { monster_default 0 with health := 0, is_alive := false } with
              is_alive := true } 7200).energy ∧
    (update_from_time_passage { monster_default 0 with health := 0, is_alive := false }
        7200).health
        = (update_from_time_passage
            { { monster_default 0 with health := 0, is_alive := false } with
              is_alive := true } 7200).health ∧
    (update_from_time_passage { monster_default 0 with health := 0, is_alive := false }
        7200).is_alive = false :=
  c9_dead_still_decays { monster_default 0 with health := 0, is_alive := false } 7200
    rfl (by decide)

/-- `feed` with the spec's exact (unbounded) additions in place of the
source's unchecked 8-bit ones — the comparison point for C10. -/
def feed_exact (m : Monster) : Monster × Msg :=
  if m.is_alive = false then (m, Msg.deceased)
  else if m.is_sleeping then (m, Msg.sleeping)
  else if m.hunger ≤ 20 then
    ({ m with happiness := satSub m.happiness 5 }, Msg.too_full)
  else
    ({ m with
        hunger := satSub m.hunger 25,
        happiness := min (m.happiness + 10) MAX_STAT,
        health := min (m.health + 5) MAX_STAT }, Msg.ate)

/-- `play` with the spec's exact (unbounded) additions in place of the
source's unchecked 8-bit ones — the comparison point for C10. -/
def play_exact (m : Monster) : Monster × Msg :=
  if m.is_alive = false then (m, Msg.deceased)
  else if m.is_sleeping then (m, Msg.sleeping)
  else if m.energy < 20 then (m, Msg.too_tired)
  else if 80 < m.hunger then (m, Msg.too_hungry)
  else
    ({ m with
        happiness := min (m.happiness + 20) MAX_STAT,
        energy := satSub m.energy 15,
        hunger := min (m.hunger + 5) MAX_STAT }, Msg.played)

/-- C10: when all bounded stats lie in `[0, 100]`, none of the unchecked
`u8` additions in `feed` (`happiness + 10`, `health + 5`) and `play`
(`happiness + 20`, `hunger + 5`) wraps, so both transitions compute the
exact-arithmetic result and are total; the precondition is essential, as
a stat above 245 (e.g. 246, possible in a persisted file, which is not
range-validated on load) makes an addition overflow. -/
theorem c10_no_overflow (m : Monster) (h : valid_stats m) :
    (wrap8 (m.happiness + 10) = m.happiness + 10 ∧
     wrap8 (m.health + 5) = m.health + 5 ∧
     wrap8 (m.happiness + 20) = m.happiness + 20 ∧
     wrap8 (m.hunger + 5) = m.hunger + 5) ∧
    (Monster.feed m = feed_exact m ∧ Monster.play m = play_exact m) ∧
    wrap8 (246 + 10) ≠ 246 + 10 := by
  obtain ⟨h1, h2, h3, h4⟩ := h
  have e1 : wrap8 (m.happiness + 10) = m.happiness + 10 := by unfold wrap8; omega
  have e2 : wrap8 (m.health + 5) = m.health + 5 := by unfold wrap8; omega
  have e3 : wrap8 (m.happiness + 20) = m.happiness + 20 := by unfold wrap8; omega
  have e4 : wrap8 (m.hunger + 5) = m.hunger + 5 := by unfold wrap8; omega
  refine ⟨⟨e1, e2, e3, e4⟩, ⟨?_, ?_⟩, by decide⟩
  · simp only [Monster.feed, feed_exact, e1, e2]
  · simp only [Monster.play, play_exact, e3, e4]

/-- Witness for C10 at the default monster. -/
theorem c10_no_overflow_witness :
    (wrap8 ((monster_default 0).happiness + 10) = (monster_default 0).happiness + 10 ∧
     wrap8 ((monster_default 0).health + 5) = (monster_default 0).health + 5 ∧
     wrap8 ((monster_default 0).happiness + 20) = (monster_default 0).happiness + 20 ∧
     wrap8 ((monster_default 0).hunger + 5) = (monster_default 0).hunger + 5) ∧
    (Monster.feed (monster_default 0) = feed_exact (monster_default 0) ∧
     Monster.play (monster_default 0) = play_exact (monster_default 0)) ∧
    wrap8 (246 + 10) ≠ 246 + 10 :=
  c10_no_overflow (monster_default 0) (by decide)
